import Mathlib

/-!
Verification of the multipart upload pipeline in `src/main.py` of the
cryptoaivideo repository.  The Python source is shallowly embedded: byte
strings become `List Nat`, the object-store and state-store side effects
become explicit call logs and state records, and each handler becomes a
pure Lean function mirroring the Python control flow line by line.
-/

namespace CryptoVideo

/-- A byte string (`bytes` / `bytearray` in the source). -/
abbrev Bytes := List Nat

/-- Default of MAX_FILE_SIZE from the configuration block (2 GiB). -/
def MAX_FILE_SIZE : Nat := 2 * 1024 * 1024 * 1024

/-- Default of CHUNK_SIZE from the configuration block (1 MiB read chunks). -/
def CHUNK_SIZE : Nat := 1024 * 1024

/-- The hard-coded flush threshold `5 * 1024 * 1024` from
`stream_telegram_to_s3` (minimum S3 part size). -/
def MIN_PART_SIZE : Nat := 5 * 1024 * 1024

/-- The hard-coded background threshold `50 * 1024 * 1024` from
`upload_telegram_file`. -/
def SMALL_FILE_LIMIT : Nat := 50 * 1024 * 1024

/-- The S3_BUCKET environment value, abstracted to a fixed string. -/
def S3_BUCKET : String := "bucket"

/-- The S3_ENDPOINT environment value, abstracted to a fixed string. -/
def S3_ENDPOINT : String := "https://s3.example"

/-!
## Chunk buffer loop (lines 244-276 of src/main.py)

The streaming loop accumulates read chunks into `buffer`, flushes the
buffer as one part whenever `len(buffer) >= 5 * 1024 * 1024`, and at end
of stream flushes any non-empty remainder.  `chunkLoop buffer chunks`
returns the emitted parts, in emission order.
-/

def chunkLoop (buffer : Bytes) : List Bytes → List Bytes
  | [] => if buffer.isEmpty then [] else [buffer]
  | c :: rest =>
    if MIN_PART_SIZE ≤ (buffer ++ c).length then
      (buffer ++ c) :: chunkLoop [] rest
    else
      chunkLoop (buffer ++ c) rest

/-- The trace of buffer lengths at the iteration boundaries of the loop:
for each read chunk, the pair (length before `buffer.extend(chunk)`,
length after the extend and before the flush check). -/
def loopTrace (buffer : Bytes) : List Bytes → List (Nat × Nat)
  | [] => []
  | c :: rest =>
    (buffer.length, (buffer ++ c).length) ::
      (if MIN_PART_SIZE ≤ (buffer ++ c).length then loopTrace [] rest
       else loopTrace (buffer ++ c) rest)

theorem chunkLoop_flatten (chunks : List Bytes) :
    ∀ buffer : Bytes, (chunkLoop buffer chunks).flatten = buffer ++ chunks.flatten := by
  induction chunks with
  | nil =>
    intro buffer
    by_cases h : buffer.isEmpty
    · simp [chunkLoop, h, List.isEmpty_iff.mp h]
    · simp [chunkLoop, h]
  | cons c rest ih =>
    intro buffer
    simp only [chunkLoop]
    by_cases h : MIN_PART_SIZE ≤ (buffer ++ c).length
    · rw [if_pos h]
      simp [ih, List.append_assoc]
    · rw [if_neg h, ih]
      simp [List.append_assoc]

theorem mem_dropLast_cons {α : Type} {p a : α} {l : List α}
    (h : p ∈ (a :: l).dropLast) : p = a ∨ p ∈ l.dropLast := by
  cases l with
  | nil => simp [List.dropLast] at h
  | cons b t =>
    rw [List.dropLast_cons₂] at h
    rcases List.mem_cons.mp h with h | h
    · exact Or.inl h
    · exact Or.inr h

theorem chunkLoop_minSize (chunks : List Bytes) :
    ∀ buffer : Bytes, buffer.length < MIN_PART_SIZE →
      ∀ p ∈ (chunkLoop buffer chunks).dropLast, MIN_PART_SIZE ≤ p.length := by
  induction chunks with
  | nil =>
    intro buffer _ p hp
    by_cases h : buffer.isEmpty <;> simp [chunkLoop, h, List.dropLast] at hp
  | cons c rest ih =>
    intro buffer _ p hp
    simp only [chunkLoop] at hp
    by_cases h : MIN_PART_SIZE ≤ (buffer ++ c).length
    · rw [if_pos h] at hp
      rcases mem_dropLast_cons hp with rfl | hp2
      · exact h
      · exact ih [] (by simp [MIN_PART_SIZE]) p hp2
    · rw [if_neg h] at hp
      exact ih (buffer ++ c) (Nat.lt_of_not_le h) p hp

/-- C1: For every byte stream (a finite list of read chunks) of total
length L, the chunk-buffer loop emits a finite list of parts whose byte
lengths sum to L, every part except possibly the last has length at
least `MIN_PART_SIZE`, and concatenating the parts in emission order
reproduces the original byte stream exactly. -/
theorem chunk_buffer_parts_correct (chunks : List Bytes) :
    (chunkLoop [] chunks).flatten = chunks.flatten ∧
    ((chunkLoop [] chunks).map List.length).sum = (chunks.map List.length).sum ∧
    ∀ p ∈ (chunkLoop [] chunks).dropLast, MIN_PART_SIZE ≤ p.length := by
  refine ⟨by simpa using chunkLoop_flatten chunks [], ?_, ?_⟩
  · have h := chunkLoop_flatten chunks []
    simp only [List.nil_append] at h
    calc ((chunkLoop [] chunks).map List.length).sum
        = (chunkLoop [] chunks).flatten.length := (List.length_flatten _).symm
      _ = chunks.flatten.length := by rw [h]
      _ = (chunks.map List.length).sum := List.length_flatten _
  · exact chunkLoop_minSize chunks [] (by simp [MIN_PART_SIZE])

theorem chunk_buffer_parts_correct_witness :
    (chunkLoop [] [[0, 1], [2]]).flatten = [[0, 1], [2]].flatten ∧
    ((chunkLoop [] [[0, 1], [2]]).map List.length).sum =
      ([[0, 1], [2]].map List.length).sum :=
  ⟨(chunk_buffer_parts_correct [[0, 1], [2]]).1,
   (chunk_buffer_parts_correct [[0, 1], [2]]).2.1⟩

theorem loopTrace_bounded (chunks : List Bytes) :
    ∀ buffer : Bytes, (∀ c ∈ chunks, c.length ≤ CHUNK_SIZE) →
      buffer.length < MIN_PART_SIZE →
      ∀ q ∈ loopTrace buffer chunks,
        q.1 < MIN_PART_SIZE ∧ q.2 < MIN_PART_SIZE + CHUNK_SIZE := by
  induction chunks with
  | nil =>
    intro buffer _ _ q hq
    simp [loopTrace] at hq
  | cons c rest ih =>
    intro buffer hc hb q hq
    have hcc : c.length ≤ CHUNK_SIZE := hc c (by simp)
    have hrest : ∀ x ∈ rest, x.length ≤ CHUNK_SIZE := fun x hx => hc x (by simp [hx])
    simp only [loopTrace, List.mem_cons] at hq
    rcases hq with rfl | hq
    · refine ⟨hb, ?_⟩
      simp only [List.length_append]
      omega
    · by_cases h : MIN_PART_SIZE ≤ (buffer ++ c).length
      · rw [if_pos h] at hq
        exact ih [] hrest (by simp [MIN_PART_SIZE]) q hq
      · rw [if_neg h] at hq
        exact ih (buffer ++ c) hrest (Nat.lt_of_not_le h) q hq

/-- C9: Throughout the streaming loop, provided every read chunk is at
most `CHUNK_SIZE` bytes, the accumulation buffer is strictly below
`MIN_PART_SIZE` before each read and strictly below
`MIN_PART_SIZE + CHUNK_SIZE` after each read (before the flush check),
independent of the total stream length. -/
theorem stream_buffer_bounded (chunks : List Bytes)
    (hc : ∀ c ∈ chunks, c.length ≤ CHUNK_SIZE) :
    ∀ q ∈ loopTrace [] chunks,
      q.1 < MIN_PART_SIZE ∧ q.2 < MIN_PART_SIZE + CHUNK_SIZE :=
  loopTrace_bounded chunks [] hc (by simp [MIN_PART_SIZE])

theorem stream_buffer_bounded_witness :
    (0, 1).1 < MIN_PART_SIZE ∧ (0, 1).2 < MIN_PART_SIZE + CHUNK_SIZE :=
  stream_buffer_bounded [[0]] (by decide) (0, 1) (by decide)

/-!
## Object-store call model

Every boto3 call issued by the source is recorded in a call log, so the
theorems can count and inspect the calls a handler performs.
-/

/-- One entry of the part list (a dict with keys PartNumber and ETag in
the source). -/
structure PartInfo where
  PartNumber : Nat
  ETag : String
deriving DecidableEq, Repr

/-- The boto3 S3 operations visible in the source (plus
`abort_multipart_upload` and `put_object`, which the spec mentions). -/
inductive S3Call where
  | create_multipart_upload (bucket key : String)
  | upload_part (bucket key : String) (partNumber : Nat) (uploadId : String) (body : Bytes)
  | complete_multipart_upload (bucket key : String) (uploadId : String) (parts : List PartInfo)
  | abort_multipart_upload (bucket key : String) (uploadId : String)
  | put_object (bucket key : String) (body : Bytes)
deriving DecidableEq, Repr

def countAborts (calls : List S3Call) : Nat :=
  calls.countP fun c => match c with
    | S3Call.abort_multipart_upload _ _ _ => true
    | _ => false

def countCreates (calls : List S3Call) : Nat :=
  calls.countP fun c => match c with
    | S3Call.create_multipart_upload _ _ => true
    | _ => false

def countPuts (calls : List S3Call) : Nat :=
  calls.countP fun c => match c with
    | S3Call.put_object _ _ _ => true
    | _ => false

def countCompletes (calls : List S3Call) : Nat :=
  calls.countP fun c => match c with
    | S3Call.complete_multipart_upload _ _ _ _ => true
    | _ => false

/-- Store responses for one streaming transfer: the upload id returned by
`create_multipart_upload`, the etag returned for each part, and whether
each `upload_part` and the final `complete_multipart_upload` succeed or
raise. -/
structure StoreBehavior where
  uploadId : String
  etagOf : Nat → String
  uploadPartOk : Nat → Bool
  completeOk : Bool

/-- A store on which every call succeeds. -/
def allOk : StoreBehavior :=
  { uploadId := "upload-1", etagOf := fun n => "etag-" ++ toString n,
    uploadPartOk := fun _ => true, completeOk := true }

/-- A store that rejects the completion call (simulated StoreRejection). -/
def completeFails : StoreBehavior :=
  { allOk with completeOk := false }

/-!
## stream_telegram_to_s3 (lines 211-286 of src/main.py)

The streaming body: create a multipart upload, run the chunk-buffer loop
uploading each flushed buffer as a part, upload the remainder, complete.
There is no try/except around any of it, so the first raising call
propagates to the caller with no further store calls.
-/

def uploadLoop (beh : StoreBehavior) (key : String) :
    Bytes → List Bytes → Nat → List PartInfo →
    Except String (List PartInfo) × List S3Call
  | buffer, [], part_number, parts =>
    if buffer.isEmpty then (Except.ok parts, [])
    else
      if beh.uploadPartOk part_number then
        (Except.ok (parts ++ [⟨part_number, beh.etagOf part_number⟩]),
         [S3Call.upload_part S3_BUCKET key part_number beh.uploadId buffer])
      else
        (Except.error "upload_part failed",
         [S3Call.upload_part S3_BUCKET key part_number beh.uploadId buffer])
  | buffer, c :: rest, part_number, parts =>
    if MIN_PART_SIZE ≤ (buffer ++ c).length then
      if beh.uploadPartOk part_number then
        let r := uploadLoop beh key [] rest (part_number + 1)
          (parts ++ [⟨part_number, beh.etagOf part_number⟩])
        (r.1, S3Call.upload_part S3_BUCKET key part_number beh.uploadId (buffer ++ c) :: r.2)
      else
        (Except.error "upload_part failed",
         [S3Call.upload_part S3_BUCKET key part_number beh.uploadId (buffer ++ c)])
    else
      uploadLoop beh key (buffer ++ c) rest part_number parts

def stream_telegram_to_s3 (beh : StoreBehavior) (s3_key : String) (chunks : List Bytes) :
    Except String String × List S3Call :=
  let createCall := S3Call.create_multipart_upload S3_BUCKET s3_key
  match uploadLoop beh s3_key [] chunks 1 [] with
  | (Except.error e, calls) => (Except.error e, createCall :: calls)
  | (Except.ok parts, calls) =>
    let completeCall := S3Call.complete_multipart_upload S3_BUCKET s3_key beh.uploadId parts
    if beh.completeOk then
      (Except.ok (S3_ENDPOINT ++ "/" ++ S3_BUCKET ++ "/" ++ s3_key),
       createCall :: (calls ++ [completeCall]))
    else
      (Except.error "complete_multipart_upload failed",
       createCall :: (calls ++ [completeCall]))

theorem uploadLoop_calls_shape (beh : StoreBehavior) (key : String) :
    ∀ (chunks : List Bytes) (buffer : Bytes) (pn : Nat) (parts : List PartInfo),
      ∀ call ∈ (uploadLoop beh key buffer chunks pn parts).2,
        ∃ n b, call = S3Call.upload_part S3_BUCKET key n beh.uploadId b := by
  intro chunks
  induction chunks with
  | nil =>
    intro buffer pn parts call hc
    by_cases hb : buffer.isEmpty
    · simp [uploadLoop, hb] at hc
    · by_cases hu : beh.uploadPartOk pn = true <;>
        simp only [uploadLoop, hb, if_false, hu, if_true, Bool.false_eq_true,
          List.mem_singleton] at hc <;>
        exact ⟨pn, buffer, hc⟩
  | cons c rest ih =>
    intro buffer pn parts call hc
    simp only [uploadLoop] at hc
    by_cases hf : MIN_PART_SIZE ≤ (buffer ++ c).length
    · rw [if_pos hf] at hc
      by_cases hu : beh.uploadPartOk pn = true
      · rw [if_pos hu] at hc
        rcases List.mem_cons.mp hc with rfl | hc2
        · exact ⟨pn, buffer ++ c, rfl⟩
        · exact ih [] (pn + 1) (parts ++ [⟨pn, beh.etagOf pn⟩]) call hc2
      · rw [if_neg hu] at hc
        rcases List.mem_singleton.mp hc with rfl
        exact ⟨pn, buffer ++ c, rfl⟩
    · rw [if_neg hf] at hc
      exact ih (buffer ++ c) pn parts call hc

theorem countAborts_uploadLoop (beh : StoreBehavior) (key : String)
    (chunks : List Bytes) (buffer : Bytes) (pn : Nat) (parts : List PartInfo) :
    countAborts (uploadLoop beh key buffer chunks pn parts).2 = 0 := by
  rw [countAborts, List.countP_eq_zero]
  intro call hcall
  obtain ⟨n, b, rfl⟩ := uploadLoop_calls_shape beh key chunks buffer pn parts call hcall
  simp

theorem countPuts_uploadLoop (beh : StoreBehavior) (key : String)
    (chunks : List Bytes) (buffer : Bytes) (pn : Nat) (parts : List PartInfo) :
    countPuts (uploadLoop beh key buffer chunks pn parts).2 = 0 := by
  rw [countPuts, List.countP_eq_zero]
  intro call hcall
  obtain ⟨n, b, rfl⟩ := uploadLoop_calls_shape beh key chunks buffer pn parts call hcall
  simp

theorem countCreates_uploadLoop (beh : StoreBehavior) (key : String)
    (chunks : List Bytes) (buffer : Bytes) (pn : Nat) (parts : List PartInfo) :
    countCreates (uploadLoop beh key buffer chunks pn parts).2 = 0 := by
  rw [countCreates, List.countP_eq_zero]
  intro call hcall
  obtain ⟨n, b, rfl⟩ := uploadLoop_calls_shape beh key chunks buffer pn parts call hcall
  simp

theorem countAborts_stream (beh : StoreBehavior) (key : String) (chunks : List Bytes) :
    countAborts (stream_telegram_to_s3 beh key chunks).2 = 0 := by
  have hz := countAborts_uploadLoop beh key chunks [] 1 []
  unfold stream_telegram_to_s3
  cases h : uploadLoop beh key [] chunks 1 [] with
  | mk r calls =>
    rw [h] at hz
    cases r with
    | error e => simpa [countAborts, List.countP_cons] using hz
    | ok parts =>
      by_cases hok : beh.completeOk = true <;>
        simp_all [countAborts, List.countP_cons, List.countP_append]

theorem countPuts_stream (beh : StoreBehavior) (key : String) (chunks : List Bytes) :
    countPuts (stream_telegram_to_s3 beh key chunks).2 = 0 := by
  have hz := countPuts_uploadLoop beh key chunks [] 1 []
  unfold stream_telegram_to_s3
  cases h : uploadLoop beh key [] chunks 1 [] with
  | mk r calls =>
    rw [h] at hz
    cases r with
    | error e => simpa [countPuts, List.countP_cons] using hz
    | ok parts =>
      by_cases hok : beh.completeOk = true <;>
        simp_all [countPuts, List.countP_cons, List.countP_append]

theorem countCreates_stream (beh : StoreBehavior) (key : String) (chunks : List Bytes) :
    countCreates (stream_telegram_to_s3 beh key chunks).2 = 1 := by
  have hz := countCreates_uploadLoop beh key chunks [] 1 []
  unfold stream_telegram_to_s3
  cases h : uploadLoop beh key [] chunks 1 [] with
  | mk r calls =>
    rw [h] at hz
    cases r with
    | error e => simpa [countCreates, List.countP_cons] using hz
    | ok parts =>
      by_cases hok : beh.completeOk = true <;>
        simp_all [countCreates, List.countP_cons, List.countP_append]

/-- C2: the claim says that on a part-upload or completion failure the
orchestrator calls abort exactly once before surfacing the error.  The
code has no abort call at all: for every store behavior and every
stream, the call log of `stream_telegram_to_s3` contains zero
`abort_multipart_upload` calls — including runs that end in an error, as
the second conjunct exhibits on a failing completion. -/
theorem stream_failure_never_aborts :
    (∀ (beh : StoreBehavior) (key : String) (chunks : List Bytes),
        countAborts (stream_telegram_to_s3 beh key chunks).2 = 0) ∧
    (stream_telegram_to_s3 completeFails "k" [[0]]).1 =
      Except.error "complete_multipart_upload failed" :=
  ⟨countAborts_stream, rfl⟩

/-!
## upload_telegram_file (lines 156-209 of src/main.py)

The endpoint: reject declared sizes over `MAX_FILE_SIZE` with HTTP 413;
defer declared sizes over 50 MiB to a background task (writing a job
record to the state store); otherwise stream synchronously within the
request.  Both size tests use Python truthiness, so a missing (None) or
zero size falls through to the synchronous path.
-/

inductive UploadResponse where
  | httpError (status : Nat) (detail : String)
  | completed (s3_url : String)
  | processing (job_id : String)
deriving DecidableEq, Repr

/-- The observable side effects of one request: object-store calls, state
store keys written, and background tasks scheduled. -/
structure EndpointEffects where
  s3 : List S3Call
  redisWrites : List String
  backgroundTasks : Nat
deriving DecidableEq, Repr

/-- Python truthiness test `request.file_size and request.file_size > bound`:
`None` and `0` are falsy, so they never pass the test. -/
def pySizeGt (file_size : Option Nat) (bound : Nat) : Bool :=
  match file_size with
  | none => false
  | some n => n != 0 && bound < n

def upload_telegram_file (beh : StoreBehavior) (s3_key : String) (chunks : List Bytes)
    (file_size : Option Nat) (job_id : String) : UploadResponse × EndpointEffects :=
  if pySizeGt file_size MAX_FILE_SIZE then
    (UploadResponse.httpError 413 "File too large", ⟨[], [], 0⟩)
  else if pySizeGt file_size SMALL_FILE_LIMIT then
    (UploadResponse.processing job_id, ⟨[], ["job:" ++ job_id], 1⟩)
  else
    match stream_telegram_to_s3 beh s3_key chunks with
    | (Except.ok url, calls) => (UploadResponse.completed url, ⟨calls, [], 0⟩)
    | (Except.error e, calls) => (UploadResponse.httpError 500 e, ⟨calls, [], 0⟩)

/-- C7: A declared file_size above `MAX_FILE_SIZE` is rejected with an
HTTP 413 size-limit error before anything else happens: no object-store
call, no state-store write, no background task. -/
theorem file_too_large_rejected_early (beh : StoreBehavior) (s3_key : String)
    (chunks : List Bytes) (n : Nat) (job_id : String) (h : MAX_FILE_SIZE < n) :
    upload_telegram_file beh s3_key chunks (some n) job_id =
      (UploadResponse.httpError 413 "File too large", ⟨[], [], 0⟩) := by
  have ht : pySizeGt (some n) MAX_FILE_SIZE = true := by
    simp only [pySizeGt, Bool.and_eq_true, bne_iff_ne, ne_eq, decide_eq_true_eq]
    omega
  simp [upload_telegram_file, ht]

theorem file_too_large_rejected_early_witness :
    upload_telegram_file allOk "k" [] (some (MAX_FILE_SIZE + 1)) "j" =
      (UploadResponse.httpError 413 "File too large", ⟨[], [], 0⟩) :=
  file_too_large_rejected_early allOk "k" [] (MAX_FILE_SIZE + 1) "j" (Nat.lt_succ_self _)

/-- C4 counterexample: for a request whose declared size (1 byte) is far
below the 50 MiB threshold, the claim says the code issues exactly one
direct put and no multipart calls; in fact the handler issues one
`create_multipart_upload` and zero `put_object` calls. -/
theorem small_file_uses_multipart_not_put :
    countCreates (upload_telegram_file allOk "k" [[0]] (some 1) "j").2.s3 = 1 ∧
    countPuts (upload_telegram_file allOk "k" [[0]] (some 1) "j").2.s3 = 0 := by
  refine ⟨?_, ?_⟩ <;> rfl

/-- C4 amended: a request at or below the 50 MiB threshold is processed
synchronously within the request (no background task, no job-record
write), but still through the multipart protocol: exactly one
`create_multipart_upload` is issued and no direct `put_object` ever is
(the code contains no direct-put path). -/
theorem small_file_streams_multipart_synchronously (beh : StoreBehavior) (s3_key : String)
    (chunks : List Bytes) (n : Nat) (job_id : String) (h : n ≤ SMALL_FILE_LIMIT) :
    countCreates (upload_telegram_file beh s3_key chunks (some n) job_id).2.s3 = 1 ∧
    countPuts (upload_telegram_file beh s3_key chunks (some n) job_id).2.s3 = 0 ∧
    (upload_telegram_file beh s3_key chunks (some n) job_id).2.backgroundTasks = 0 ∧
    (upload_telegram_file beh s3_key chunks (some n) job_id).2.redisWrites = [] := by
  have hmax : pySizeGt (some n) MAX_FILE_SIZE = false := by
    simp only [pySizeGt, Bool.and_eq_false_iff]
    right
    simp only [decide_eq_false_iff_not, not_lt]
    have : SMALL_FILE_LIMIT ≤ MAX_FILE_SIZE := by decide
    omega
  have hsmall : pySizeGt (some n) SMALL_FILE_LIMIT = false := by
    simp only [pySizeGt, Bool.and_eq_false_iff]
    right
    simp only [decide_eq_false_iff_not, not_lt]
    exact h
  unfold upload_telegram_file
  rw [hmax, hsmall]
  simp only [Bool.false_eq_true, if_false]
  have hc := countCreates_stream beh s3_key chunks
  have hp := countPuts_stream beh s3_key chunks
  cases hs : stream_telegram_to_s3 beh s3_key chunks with
  | mk r calls =>
    rw [hs] at hc hp
    cases r <;> exact ⟨hc, hp, rfl, rfl⟩

theorem small_file_streams_multipart_synchronously_witness :
    countCreates (upload_telegram_file allOk "k" [[0], [1]] (some 2) "j").2.s3 = 1 ∧
    countPuts (upload_telegram_file allOk "k" [[0], [1]] (some 2) "j").2.s3 = 0 ∧
    (upload_telegram_file allOk "k" [[0], [1]] (some 2) "j").2.backgroundTasks = 0 ∧
    (upload_telegram_file allOk "k" [[0], [1]] (some 2) "j").2.redisWrites = [] :=
  small_file_streams_multipart_synchronously allOk "k" [[0], [1]] 2 "j" (by decide)

/-!
## process_large_file and notify_telegram (lines 86-95 and 288-341)

The background task wraps the whole transfer in try/except: on success
it writes a completed job record, on any exception a failed record with
the stringified error.  `notify_telegram` itself swallows every
exception from the HTTP post and only prints a warning, so notification
failures can never alter the task outcome.
-/

/-- The job record written to the state store under the job id key
(status, s3_url on success, error on failure). -/
structure JobRecord where
  status : String
  s3_url : Option String
  error : Option String
deriving DecidableEq, Repr

/-- Model of notify_telegram: it posts a message to the platform; the
whole post sits in a try/except whose handler only prints.  The model
takes the outcome of the post and returns the printed warning, never
propagating an error. -/
def notify_telegram (postResult : Except String Unit) : Option String :=
  match postResult with
  | Except.ok _ => none
  | Except.error e => some ("Failed to send Telegram notification: " ++ e)

def process_large_file (beh : StoreBehavior) (s3_key : String) (chunks : List Bytes)
    (notifyStart notifyEnd : Except String Unit) : JobRecord :=
  let _ := notify_telegram notifyStart
  match stream_telegram_to_s3 beh s3_key chunks with
  | (Except.ok url, _) =>
    let _ := notify_telegram notifyEnd
    { status := "completed", s3_url := some url, error := none }
  | (Except.error e, _) =>
    let _ := notify_telegram notifyEnd
    { status := "failed", s3_url := none, error := some e }

/-- C8: a deferred transfer that raises is caught at the top of the
background task and recorded as a failed job with the error string; and
the job record is a function of the transfer outcome alone — changing
the notification outcomes (including failing ones) never changes it. -/
theorem background_failure_recorded (beh : StoreBehavior) (s3_key : String)
    (chunks : List Bytes) (n1 n2 m1 m2 : Except String Unit) (e : String) :
    process_large_file beh s3_key chunks n1 n2 =
      process_large_file beh s3_key chunks m1 m2 ∧
    ((stream_telegram_to_s3 beh s3_key chunks).1 = Except.error e →
      process_large_file beh s3_key chunks n1 n2 =
        { status := "failed", s3_url := none, error := some e }) := by
  unfold process_large_file
  cases h : stream_telegram_to_s3 beh s3_key chunks with
  | mk r calls => cases r <;> simp_all

theorem background_failure_recorded_witness :
    process_large_file completeFails "k" [[0]] (Except.error "timeout") (Except.ok ()) =
      { status := "failed", s3_url := none,
        error := some "complete_multipart_upload failed" } :=
  (background_failure_recorded completeFails "k" [[0]] (Except.error "timeout")
    (Except.ok ()) (Except.ok ()) (Except.ok ())
    "complete_multipart_upload failed").2 rfl

/-!
## State store (Redis) model

String keys hold upload ids (session keys), list keys hold the part
records.  Both are association lists where an update removes any
previous binding of the key.
-/

def kvGet (s : List (String × String)) (k : String) : Option String :=
  (s.find? fun p => p.1 == k).map fun p => p.2

def kvDel (s : List (String × String)) (k : String) : List (String × String) :=
  s.filter fun p => p.1 != k

def kvSet (s : List (String × String)) (k v : String) : List (String × String) :=
  (k, v) :: kvDel s k

def plistFind (s : List (String × List PartInfo)) (k : String) :
    Option (List PartInfo) :=
  (s.find? fun p => p.1 == k).map fun p => p.2

def plistDel (s : List (String × List PartInfo)) (k : String) :
    List (String × List PartInfo) :=
  s.filter fun p => p.1 != k

/-- An rpush of one part record onto the list stored at `k`. -/
def plistAppend (s : List (String × List PartInfo)) (k : String) (v : PartInfo) :
    List (String × List PartInfo) :=
  (k, (plistFind s k).getD [] ++ [v]) :: plistDel s k

theorem kvGet_kvDel (s : List (String × String)) (k : String) :
    kvGet (kvDel s k) k = none := by
  have hfind : (kvDel s k).find? (fun p => p.1 == k) = none := by
    rw [List.find?_eq_none]
    intro p hp
    have h := (List.mem_filter.mp hp).2
    simpa using h
  simp [kvGet, hfind]

theorem kvGet_kvSet (s : List (String × String)) (k v : String) :
    kvGet (kvSet s k v) k = some v := by
  simp [kvGet, kvSet, List.find?]

theorem plistFind_plistDel (s : List (String × List PartInfo)) (k : String) :
    plistFind (plistDel s k) k = none := by
  have hfind : (plistDel s k).find? (fun p => p.1 == k) = none := by
    rw [List.find?_eq_none]
    intro p hp
    have h := (List.mem_filter.mp hp).2
    simpa using h
  simp [plistFind, hfind]

theorem plistFind_plistAppend (s : List (String × List PartInfo)) (k : String)
    (v : PartInfo) :
    plistFind (plistAppend s k v) k = some ((plistFind s k).getD [] ++ [v]) := by
  simp [plistFind, plistAppend, List.find?]

/-!
## generate_s3_key (lines 80-84) and handle_multipart_upload (lines 355-445)

`generate_s3_key` embeds the wall-clock timestamp (second resolution)
and the first 8 hex digits of an md5 digest into the key; both are
inputs of the model (`timestamp`, `md5hex8`).  The chunked-upload
handler regenerates this key on every request, creates a fresh multipart
upload whenever `chunk_number == 0`, looks up the stored upload id
otherwise, uploads the chunk as part `chunk_number + 1` with no ordering
check, and on `chunk_number == total_chunks - 1` completes with the
sorted part list and deletes the session and part keys.
-/

def generate_s3_key (md5hex8 : String → String) (user_id file_name : String)
    (timestamp : String) (folder : String) : String :=
  folder ++ "/" ++ user_id ++ "/" ++ timestamp ++ "_" ++
    md5hex8 (user_id ++ "_" ++ timestamp) ++ "_" ++ file_name

/-- The full server-visible state of the chunked-upload flow: the two
kinds of state-store keys plus the store-side counter that hands out
fresh upload ids to `create_multipart_upload`. -/
structure ServerState where
  kv : List (String × String)
  plists : List (String × List PartInfo)
  nextUploadId : Nat
deriving DecidableEq, Repr

structure ChunkRequest where
  filename : String
  user_id : String
  chunk_number : Nat
  total_chunks : Nat
  body : Bytes
deriving DecidableEq, Repr

inductive ChunkResponse where
  | httpError (status : Nat) (detail : String)
  | chunk_uploaded (chunk_number total_chunks : Nat)
  | completed (s3_url : String)
deriving DecidableEq, Repr

/-- Python `sorted(parts, key=lambda x: x[PartNumber])`. -/
def sortParts (parts : List PartInfo) : List PartInfo :=
  List.insertionSort (fun a b => a.PartNumber ≤ b.PartNumber) parts

/-- Lines 392-445: everything after the upload id is known — upload the
chunk as part `chunk_number + 1`, append the part record, and on the
final chunk complete with the sorted part list and clear both state
keys.  The comparison `chunk_number == total_chunks - 1` is on Python
integers, hence taken in `Int`. -/
def handleWithSession (md5hex8 : String → String) (etagOf : Nat → String)
    (timestamp : String) (req : ChunkRequest) (uploadId : String)
    (st1 : ServerState) (calls1 : List S3Call) :
    ChunkResponse × ServerState × List S3Call :=
  let s3_key := generate_s3_key md5hex8 req.user_id req.filename timestamp "chunks"
  let uploadCall :=
    S3Call.upload_part S3_BUCKET s3_key (req.chunk_number + 1) uploadId req.body
  let st2 : ServerState :=
    { st1 with plists := (plistAppend st1.plists ("parts:" ++ uploadId)
        ⟨req.chunk_number + 1, etagOf (req.chunk_number + 1)⟩) }
  if (req.chunk_number : Int) = (req.total_chunks : Int) - 1 then
    let parts := (plistFind st2.plists ("parts:" ++ uploadId)).getD []
    (ChunkResponse.completed (S3_ENDPOINT ++ "/" ++ S3_BUCKET ++ "/" ++ s3_key),
     { kv := kvDel st2.kv ("upload:" ++ req.user_id ++ ":" ++ req.filename),
       plists := plistDel st2.plists ("parts:" ++ uploadId),
       nextUploadId := st2.nextUploadId },
     calls1 ++ [uploadCall,
       S3Call.complete_multipart_upload S3_BUCKET s3_key uploadId (sortParts parts)])
  else
    (ChunkResponse.chunk_uploaded req.chunk_number req.total_chunks, st2,
     calls1 ++ [uploadCall])

def handle_multipart_upload (md5hex8 : String → String) (etagOf : Nat → String)
    (timestamp : String) (req : ChunkRequest) (st : ServerState) :
    ChunkResponse × ServerState × List S3Call :=
  if req.chunk_number = 0 then
    handleWithSession md5hex8 etagOf timestamp req
      ("upload-" ++ toString st.nextUploadId)
      { kv := kvSet st.kv ("upload:" ++ req.user_id ++ ":" ++ req.filename)
          ("upload-" ++ toString st.nextUploadId),
        plists := st.plists,
        nextUploadId := st.nextUploadId + 1 }
      [S3Call.create_multipart_upload S3_BUCKET
        (generate_s3_key md5hex8 req.user_id req.filename timestamp "chunks")]
  else
    match kvGet st.kv ("upload:" ++ req.user_id ++ ":" ++ req.filename) with
    | none => (ChunkResponse.httpError 400 "Upload session expired or not found", st, [])
    | some uploadId =>
      if uploadId = "" then
        (ChunkResponse.httpError 400 "Upload session expired or not found", st, [])
      else
        handleWithSession md5hex8 etagOf timestamp req uploadId st []

/-- Fixed md5 stub used in the concrete runs. -/
def hashStub : String → String := fun _ => "deadbeef"

/-- Fixed etag stub used in the concrete runs. -/
def etagStub : Nat → String := fun _ => "etag"

def emptyState : ServerState := ⟨[], [], 0⟩

/-- A state mid-session: one live session with one recorded part. -/
def liveState : ServerState :=
  { kv := [("upload:u:f.mp4", "upload-0")],
    plists := [("parts:upload-0", [⟨1, "etag"⟩])],
    nextUploadId := 1 }

/-- C3: the claim says a repeated begin for the same (owner, file name)
returns the identical live session and never opens a second multipart
upload against the same object key.  In the code every chunk-0 request
calls `create_multipart_upload` afresh and overwrites the stored session
with a new upload id; moreover `generate_s3_key` embeds the
second-resolution timestamp, so the supposedly consistent key differs
across seconds. -/
theorem repeated_begin_opens_second_upload :
    (let r1 := handle_multipart_upload hashStub etagStub "20250101_000000"
        ⟨"f.mp4", "u", 0, 3, [0]⟩ emptyState
     let r2 := handle_multipart_upload hashStub etagStub "20250101_000000"
        ⟨"f.mp4", "u", 0, 3, [0]⟩ r1.2.1
     countCreates r1.2.2 = 1 ∧ countCreates r2.2.2 = 1 ∧
       kvGet r1.2.1.kv "upload:u:f.mp4" = some "upload-0" ∧
       kvGet r2.2.1.kv "upload:u:f.mp4" = some "upload-1") ∧
    generate_s3_key hashStub "u" "f.mp4" "20250101_000000" "chunks" ≠
      generate_s3_key hashStub "u" "f.mp4" "20250101_000001" "chunks" :=
  ⟨⟨rfl, rfl, rfl, rfl⟩, by decide⟩

/-- C5 counterexample: with one part already recorded (so the next
expected part number is 2), a request with chunk_number 5 is not
rejected with OutOfOrderPart: the handler uploads it as part 6 and
appends its record to the part list. -/
theorem out_of_order_chunk_accepted :
    handle_multipart_upload hashStub etagStub "20250101_000000"
      ⟨"f.mp4", "u", 5, 100, [7]⟩ liveState =
    (ChunkResponse.chunk_uploaded 5 100,
     { kv := [("upload:u:f.mp4", "upload-0")],
       plists := [("parts:upload-0", [⟨1, "etag"⟩, ⟨6, "etag"⟩])],
       nextUploadId := 1 },
     [S3Call.upload_part S3_BUCKET
        (generate_s3_key hashStub "u" "f.mp4" "20250101_000000" "chunks")
        6 "upload-0" [7]]) := rfl

/-- C5 amended: the handler performs no ordering validation in
client-submitted-chunk mode: any nonzero chunk_number whose session is
live in the state store is accepted and uploaded as part
chunk_number + 1; only a missing (or empty) session entry yields an
error response. -/
theorem any_chunk_number_accepted (md5hex8 : String → String) (etagOf : Nat → String)
    (timestamp : String) (req : ChunkRequest) (st : ServerState) (uploadId : String)
    (h0 : req.chunk_number ≠ 0)
    (hs : kvGet st.kv ("upload:" ++ req.user_id ++ ":" ++ req.filename) = some uploadId)
    (hne : uploadId ≠ "") :
    (∀ status detail, (handle_multipart_upload md5hex8 etagOf timestamp req st).1 ≠
        ChunkResponse.httpError status detail) ∧
    S3Call.upload_part S3_BUCKET
        (generate_s3_key md5hex8 req.user_id req.filename timestamp "chunks")
        (req.chunk_number + 1) uploadId req.body ∈
      (handle_multipart_upload md5hex8 etagOf timestamp req st).2.2 := by
  have hEq : handle_multipart_upload md5hex8 etagOf timestamp req st =
      handleWithSession md5hex8 etagOf timestamp req uploadId st [] := by
    unfold handle_multipart_upload
    rw [if_neg h0, hs]
    dsimp only
    rw [if_neg hne]
  rw [hEq]
  simp only [handleWithSession]
  by_cases hl : (req.chunk_number : Int) = (req.total_chunks : Int) - 1
  · rw [if_pos hl]
    exact ⟨fun status detail => by simp, by simp⟩
  · rw [if_neg hl]
    exact ⟨fun status detail => by simp, by simp⟩

theorem any_chunk_number_accepted_witness :
    S3Call.upload_part S3_BUCKET
        (generate_s3_key hashStub "u" "f.mp4" "20250101_000000" "chunks")
        6 "upload-0" [7] ∈
      (handle_multipart_upload hashStub etagStub "20250101_000000"
        ⟨"f.mp4", "u", 5, 100, [7]⟩ liveState).2.2 :=
  (any_chunk_number_accepted hashStub etagStub "20250101_000000"
    ⟨"f.mp4", "u", 5, 100, [7]⟩ liveState "upload-0"
    (by decide) rfl (by decide)).2

theorem handleWithSession_final (md5hex8 : String → String) (etagOf : Nat → String)
    (timestamp : String) (req : ChunkRequest) (uploadId : String)
    (st1 : ServerState) (calls1 : List S3Call)
    (hlast : (req.chunk_number : Int) = (req.total_chunks : Int) - 1)
    (hc1 : countCompletes calls1 = 0) :
    ∃ parts,
      (handleWithSession md5hex8 etagOf timestamp req uploadId st1 calls1).1 =
        ChunkResponse.completed (S3_ENDPOINT ++ "/" ++ S3_BUCKET ++ "/" ++
          generate_s3_key md5hex8 req.user_id req.filename timestamp "chunks") ∧
      countCompletes
        (handleWithSession md5hex8 etagOf timestamp req uploadId st1 calls1).2.2 = 1 ∧
      S3Call.complete_multipart_upload S3_BUCKET
          (generate_s3_key md5hex8 req.user_id req.filename timestamp "chunks")
          uploadId parts ∈
        (handleWithSession md5hex8 etagOf timestamp req uploadId st1 calls1).2.2 ∧
      kvGet (handleWithSession md5hex8 etagOf timestamp req uploadId st1 calls1).2.1.kv
          ("upload:" ++ req.user_id ++ ":" ++ req.filename) = none ∧
      plistFind
          (handleWithSession md5hex8 etagOf timestamp req uploadId st1 calls1).2.1.plists
          ("parts:" ++ uploadId) = none := by
  have hEq : handleWithSession md5hex8 etagOf timestamp req uploadId st1 calls1 =
      (ChunkResponse.completed (S3_ENDPOINT ++ "/" ++ S3_BUCKET ++ "/" ++
          generate_s3_key md5hex8 req.user_id req.filename timestamp "chunks"),
       { kv := kvDel st1.kv ("upload:" ++ req.user_id ++ ":" ++ req.filename),
         plists := (plistDel (plistAppend st1.plists ("parts:" ++ uploadId)
           ⟨req.chunk_number + 1, etagOf (req.chunk_number + 1)⟩) ("parts:" ++ uploadId)),
         nextUploadId := st1.nextUploadId },
       calls1 ++ [S3Call.upload_part S3_BUCKET
           (generate_s3_key md5hex8 req.user_id req.filename timestamp "chunks")
           (req.chunk_number + 1) uploadId req.body,
         S3Call.complete_multipart_upload S3_BUCKET
           (generate_s3_key md5hex8 req.user_id req.filename timestamp "chunks") uploadId
           (sortParts ((plistFind (plistAppend st1.plists ("parts:" ++ uploadId)
             ⟨req.chunk_number + 1, etagOf (req.chunk_number + 1)⟩)
             ("parts:" ++ uploadId)).getD []))]) := by
    simp only [handleWithSession]
    rw [if_pos hlast]
  refine ⟨sortParts ((plistFind (plistAppend st1.plists ("parts:" ++ uploadId)
      ⟨req.chunk_number + 1, etagOf (req.chunk_number + 1)⟩)
      ("parts:" ++ uploadId)).getD []), ?_, ?_, ?_, ?_, ?_⟩ <;> rw [hEq] <;> dsimp only
  · have hc1x : List.countP
        (fun c => match c with
          | S3Call.complete_multipart_upload _ _ _ _ => true
          | _ => false) calls1 = 0 := hc1
    simp [countCompletes, List.countP_append, List.countP_cons, hc1x]
  · simp
  · exact kvGet_kvDel _ _
  · exact plistFind_plistDel _ _

theorem countCompletes_create_nil (b k : String) :
    countCompletes [S3Call.create_multipart_upload b k] = 0 := rfl

/-- C6: when the chunk with chunk_number = total_chunks - 1 arrives (and
its session is live, or it is itself chunk 0), the handler issues
exactly one complete-multipart-upload call, returns a completed response
carrying the final URL, and afterwards neither the session key nor the
part-list key of that upload remains in the state store. -/
theorem final_chunk_completes_and_clears (md5hex8 : String → String)
    (etagOf : Nat → String) (timestamp : String) (req : ChunkRequest) (st : ServerState)
    (hlast : (req.chunk_number : Int) = (req.total_chunks : Int) - 1)
    (hbegin : req.chunk_number = 0 ∨
      ∃ u, kvGet st.kv ("upload:" ++ req.user_id ++ ":" ++ req.filename) = some u ∧
        u ≠ "") :
    ∃ uploadId parts,
      (handle_multipart_upload md5hex8 etagOf timestamp req st).1 =
        ChunkResponse.completed (S3_ENDPOINT ++ "/" ++ S3_BUCKET ++ "/" ++
          generate_s3_key md5hex8 req.user_id req.filename timestamp "chunks") ∧
      countCompletes (handle_multipart_upload md5hex8 etagOf timestamp req st).2.2 = 1 ∧
      S3Call.complete_multipart_upload S3_BUCKET
          (generate_s3_key md5hex8 req.user_id req.filename timestamp "chunks")
          uploadId parts ∈
        (handle_multipart_upload md5hex8 etagOf timestamp req st).2.2 ∧
      kvGet (handle_multipart_upload md5hex8 etagOf timestamp req st).2.1.kv
          ("upload:" ++ req.user_id ++ ":" ++ req.filename) = none ∧
      plistFind (handle_multipart_upload md5hex8 etagOf timestamp req st).2.1.plists
          ("parts:" ++ uploadId) = none := by
  by_cases h0 : req.chunk_number = 0
  · have hEq : handle_multipart_upload md5hex8 etagOf timestamp req st =
        handleWithSession md5hex8 etagOf timestamp req
          ("upload-" ++ toString st.nextUploadId)
          { kv := kvSet st.kv ("upload:" ++ req.user_id ++ ":" ++ req.filename)
              ("upload-" ++ toString st.nextUploadId),
            plists := st.plists,
            nextUploadId := st.nextUploadId + 1 }
          [S3Call.create_multipart_upload S3_BUCKET
            (generate_s3_key md5hex8 req.user_id req.filename timestamp "chunks")] := by
      unfold handle_multipart_upload
      rw [if_pos h0]
    rw [hEq]
    obtain ⟨parts, h1, h2, h3, h4, h5⟩ :=
      handleWithSession_final md5hex8 etagOf timestamp req
        ("upload-" ++ toString st.nextUploadId) _ _ hlast (countCompletes_create_nil _ _)
    exact ⟨_, parts, h1, h2, h3, h4, h5⟩
  · obtain ⟨u, hu, hne⟩ := hbegin.resolve_left h0
    have hEq : handle_multipart_upload md5hex8 etagOf timestamp req st =
        handleWithSession md5hex8 etagOf timestamp req u st [] := by
      unfold handle_multipart_upload
      rw [if_neg h0, hu]
      dsimp only
      rw [if_neg hne]
    rw [hEq]
    obtain ⟨parts, h1, h2, h3, h4, h5⟩ :=
      handleWithSession_final md5hex8 etagOf timestamp req u st [] hlast rfl
    exact ⟨u, parts, h1, h2, h3, h4, h5⟩

theorem final_chunk_completes_and_clears_witness :
    (handle_multipart_upload hashStub etagStub "20250101_000000"
        ⟨"f.mp4", "u", 2, 3, [7]⟩ liveState).1 =
      ChunkResponse.completed (S3_ENDPOINT ++ "/" ++ S3_BUCKET ++ "/" ++
        generate_s3_key hashStub "u" "f.mp4" "20250101_000000" "chunks") ∧
    kvGet (handle_multipart_upload hashStub etagStub "20250101_000000"
        ⟨"f.mp4", "u", 2, 3, [7]⟩ liveState).2.1.kv "upload:u:f.mp4" = none := by
  obtain ⟨uploadId, parts, h1, h2, h3, h4, h5⟩ :=
    final_chunk_completes_and_clears hashStub etagStub "20250101_000000"
      ⟨"f.mp4", "u", 2, 3, [7]⟩ liveState (by decide)
      (Or.inr ⟨"upload-0", rfl, by decide⟩)
  exact ⟨h1, h4⟩

instance : IsTotal PartInfo fun a b => a.PartNumber ≤ b.PartNumber :=
  ⟨fun a b => Nat.le_total a.PartNumber b.PartNumber⟩

instance : IsTrans PartInfo fun a b => a.PartNumber ≤ b.PartNumber :=
  ⟨fun _ _ _ => Nat.le_trans⟩

theorem sortParts_sorted (parts : List PartInfo) :
    List.Sorted (fun a b => a.PartNumber ≤ b.PartNumber) (sortParts parts) :=
  List.sorted_insertionSort _ parts

theorem handleWithSession_complete_sorted (md5hex8 : String → String)
    (etagOf : Nat → String) (timestamp : String) (req : ChunkRequest)
    (uploadId : String) (st1 : ServerState) (calls1 : List S3Call)
    (hc1 : ∀ b k u ps, S3Call.complete_multipart_upload b k u ps ∉ calls1)
    (b k u : String) (ps : List PartInfo)
    (h : S3Call.complete_multipart_upload b k u ps ∈
      (handleWithSession md5hex8 etagOf timestamp req uploadId st1 calls1).2.2) :
    List.Sorted (fun a c => a.PartNumber ≤ c.PartNumber) ps := by
  simp only [handleWithSession] at h
  by_cases hl : (req.chunk_number : Int) = (req.total_chunks : Int) - 1
  · rw [if_pos hl] at h
    dsimp only at h
    rcases List.mem_append.mp h with h | h
    · exact absurd h (hc1 b k u ps)
    · rcases List.mem_cons.mp h with h | h
      · exact absurd h (by simp)
      · rcases List.mem_singleton.mp h with h
        obtain ⟨-, -, -, hps⟩ := S3Call.complete_multipart_upload.inj h
        rw [hps]
        exact sortParts_sorted _
  · rw [if_neg hl] at h
    dsimp only at h
    rcases List.mem_append.mp h with h | h
    · exact absurd h (hc1 b k u ps)
    · rcases List.mem_singleton.mp h with h
      exact absurd h (by simp)

/-- C10: every complete-multipart-upload call the chunked-upload handler
issues carries a part list sorted in ascending PartNumber order,
whatever the order in which part records were appended to the
state-store list. -/
theorem completion_parts_sorted (md5hex8 : String → String) (etagOf : Nat → String)
    (timestamp : String) (req : ChunkRequest) (st : ServerState)
    (b k u : String) (ps : List PartInfo)
    (h : S3Call.complete_multipart_upload b k u ps ∈
      (handle_multipart_upload md5hex8 etagOf timestamp req st).2.2) :
    List.Sorted (fun a c => a.PartNumber ≤ c.PartNumber) ps := by
  unfold handle_multipart_upload at h
  by_cases h0 : req.chunk_number = 0
  · rw [if_pos h0] at h
    exact handleWithSession_complete_sorted md5hex8 etagOf timestamp req _ _ _
      (by intro b1 k1 u1 ps1; simp) b k u ps h
  · rw [if_neg h0] at h
    cases hkv : kvGet st.kv ("upload:" ++ req.user_id ++ ":" ++ req.filename) with
    | none =>
      rw [hkv] at h
      simp at h
    | some uId =>
      rw [hkv] at h
      dsimp only at h
      by_cases hne : uId = ""
      · rw [if_pos hne] at h
        simp at h
      · rw [if_neg hne] at h
        exact handleWithSession_complete_sorted md5hex8 etagOf timestamp req uId st []
          (by intro b1 k1 u1 ps1; simp) b k u ps h

theorem completion_parts_sorted_witness :
    List.Sorted (fun a c => a.PartNumber ≤ c.PartNumber)
      [(⟨1, "etag"⟩ : PartInfo)] :=
  completion_parts_sorted hashStub etagStub "20250101_000000"
    ⟨"f.mp4", "u", 0, 1, [7]⟩ emptyState S3_BUCKET
    (generate_s3_key hashStub "u" "f.mp4" "20250101_000000" "chunks")
    "upload-0" [⟨1, "etag"⟩] (by decide)

end CryptoVideo
